import Mathlib

/-!
Shallow embedding of the core pipeline of the research-assistant repository
(`src/models/context.py`, `src/models/query.py`, `src/models/response.py`,
`src/services/evaluator.py`, `src/services/synthesizer.py`,
`src/services/orchestrator.py`) and proofs about the claims on that code.

Conventions of the embedding:
* Python floats are modelled as `ℚ`; the single transcendental computation
  (`math.exp` inside `Evaluator._calculate_recency_score`) is modelled over `ℝ`
  in a dedicated definition.  The quality-score pipeline takes the recency
  valuation as a function parameter, since every filtering property proved here
  holds for an arbitrary recency value.
* Python exceptions are modelled with `Except String`.
* `datetime` values are modelled as integer epoch seconds; `timedelta.days`
  is floor division by 86400.
* Wall-clock fields (`*_time_ms`) are carried but not given meaning: the
  embedding sets them to the values the code would observe as `0` elapsed.
-/

/- Batteries marks the arithmetic kernel of `Rat` `@[irreducible]`; concrete
runs of the embedded code are evaluated by `decide`, which needs these
definitions to unfold.  This only affects elaboration-time transparency. -/
attribute [local semireducible] Rat.mul Rat.add Rat.sub Rat.inv

namespace RA

/-! ### Data model: src/models/context.py -/

/-- `SourceType` enum (`rag`, `web`, `arxiv`, `memory`). -/
inductive SourceType
  | rag
  | web
  | arxiv
  | memory
deriving DecidableEq, Repr

/-- `SourceType.value`: the string value of the enum member. -/
def SourceType.value : SourceType → String
  | .rag => "rag"
  | .web => "web"
  | .arxiv => "arxiv"
  | .memory => "memory"

/-- `FilteringDecision` enum. -/
inductive FilteringDecision
  | kept
  | deduplicated
  | low_quality
  | contradictory
deriving DecidableEq, Repr

/-- `ContextChunk` dataclass.  Fields that are inert for every claim
(`position_in_source`, `chunk_number`, `metadata`, `timestamp`) are omitted.
`source_date` is optional epoch seconds. -/
structure ContextChunk where
  id : String
  query_id : String
  source_type : SourceType
  text : String
  semantic_relevance : ℚ
  source_reputation : ℚ
  recency_score : ℚ
  source_id : String
  source_title : Option String
  source_url : Option String
  source_date : Option ℤ
deriving DecidableEq, Repr

/-- `ContextChunk._validate` (run by `__post_init__`): raises unless all of
these hold, where `now` is `datetime.utcnow()` at construction time. -/
def ContextChunk.valid (now : ℤ) (c : ContextChunk) : Prop :=
  c.text ≠ "" ∧ c.text.length ≤ 10000 ∧
  0 ≤ c.semantic_relevance ∧ c.semantic_relevance ≤ 1 ∧
  0 ≤ c.source_reputation ∧ c.source_reputation ≤ 1 ∧
  0 ≤ c.recency_score ∧ c.recency_score ≤ 1 ∧
  c.source_id ≠ "" ∧
  (∀ d, c.source_date = some d → d ≤ now)

instance (now : ℤ) (c : ContextChunk) : Decidable (c.valid now) := by
  unfold ContextChunk.valid; infer_instance

/-- `AggregatedContext` dataclass (the `id`/`timestamp` bookkeeping fields are
omitted as inert). -/
structure AggregatedContext where
  query_id : String
  chunks : List ContextChunk
  retrieval_time_ms : ℚ
  sources_consulted : List String
  sources_failed : List String
  total_chunks_before_dedup : ℕ
  total_chunks_after_dedup : ℕ
deriving DecidableEq, Repr

/-- `AggregatedContext(query_id=...)` with all dataclass defaults. -/
def AggregatedContext.init (query_id : String) : AggregatedContext :=
  { query_id := query_id, chunks := [], retrieval_time_ms := 0,
    sources_consulted := [], sources_failed := [],
    total_chunks_before_dedup := 0, total_chunks_after_dedup := 0 }

/-- `AggregatedContext.add_chunk`. -/
def AggregatedContext.add_chunk (a : AggregatedContext) (c : ContextChunk) :
    AggregatedContext :=
  { a with chunks := a.chunks ++ [c] }

/-- `QualityScoring` dataclass. -/
structure QualityScoring where
  source_reputation : ℚ
  recency_score : ℚ
  semantic_relevance : ℚ
  redundancy_penalty : ℚ
deriving DecidableEq, Repr

/-- `FilteredChunk` dataclass: a `ContextChunk` plus quality data.
`quality_components` is `Optional` in the source. -/
structure FilteredChunk extends ContextChunk where
  quality_score : ℚ
  quality_components : Option QualityScoring
  filtering_decision : FilteringDecision
deriving DecidableEq, Repr

/-- `RemovedChunkRecord` dataclass. -/
structure RemovedChunkRecord where
  original_chunk_id : String
  reason : FilteringDecision
  quality_score : ℚ
  source : String
  text_preview : String
deriving DecidableEq, Repr

/-- `ContradictionRecord` dataclass. -/
structure ContradictionRecord where
  claim_1 : String
  claim_1_source : String
  claim_2 : String
  claim_2_source : String
  severity : String
deriving DecidableEq, Repr

/-- `FilteredContext` dataclass (inert `id`/`timestamp` omitted). -/
structure FilteredContext where
  query_id : String
  original_chunk_count : ℕ
  filtered_chunk_count : ℕ
  chunks : List FilteredChunk
  filtering_time_ms : ℚ
  average_quality_score : ℚ
  quality_threshold_used : ℚ
  removed_chunks : List RemovedChunkRecord
  contradictions_detected : List ContradictionRecord
deriving DecidableEq, Repr

/-- The record built by `FilteredContext.__init__` followed by the
non-raising part of `__post_init__`: when `filtered_chunk_count > 0` the
average quality is recomputed as `sum(c.quality_score for c in chunks) /
filtered_chunk_count`, otherwise the passed value is kept. -/
def FilteredContext.make (query_id : String)
    (original_chunk_count filtered_chunk_count : ℕ)
    (chunks : List FilteredChunk)
    (filtering_time_ms average_quality_score quality_threshold_used : ℚ)
    (removed_chunks : List RemovedChunkRecord)
    (contradictions_detected : List ContradictionRecord) : FilteredContext :=
  { query_id := query_id,
    original_chunk_count := original_chunk_count,
    filtered_chunk_count := filtered_chunk_count,
    chunks := chunks,
    filtering_time_ms := filtering_time_ms,
    average_quality_score :=
      if 0 < filtered_chunk_count then
        (chunks.map (fun c => c.quality_score)).sum / (filtered_chunk_count : ℚ)
      else average_quality_score,
    quality_threshold_used := quality_threshold_used,
    removed_chunks := removed_chunks,
    contradictions_detected := contradictions_detected }

/-- `FilteredContext(...)` construction including the raising branch of
`__post_init__`: `filtered_chunk_count > original_chunk_count` raises
`ValueError`. -/
def FilteredContext.construct (query_id : String)
    (original_chunk_count filtered_chunk_count : ℕ)
    (chunks : List FilteredChunk)
    (filtering_time_ms average_quality_score quality_threshold_used : ℚ)
    (removed_chunks : List RemovedChunkRecord)
    (contradictions_detected : List ContradictionRecord) :
    Except String FilteredContext :=
  if original_chunk_count < filtered_chunk_count then
    .error "filtered_chunk_count must be <= original_chunk_count"
  else
    .ok (FilteredContext.make query_id original_chunk_count filtered_chunk_count
      chunks filtering_time_ms average_quality_score quality_threshold_used
      removed_chunks contradictions_detected)

/-- `FilteredContext.add_filtered_chunk`: append and update the count.
Note that it does not touch `average_quality_score`. -/
def FilteredContext.add_filtered_chunk (f : FilteredContext)
    (chunk : FilteredChunk) : FilteredContext :=
  { f with chunks := f.chunks ++ [chunk],
           filtered_chunk_count := (f.chunks ++ [chunk]).length }

/-- `FilteredContext.add_removed_chunk`. -/
def FilteredContext.add_removed_chunk (f : FilteredContext)
    (record : RemovedChunkRecord) : FilteredContext :=
  { f with removed_chunks := f.removed_chunks ++ [record] }

/-- `FilteredContext.add_contradiction`. -/
def FilteredContext.add_contradiction (f : FilteredContext)
    (record : ContradictionRecord) : FilteredContext :=
  { f with contradictions_detected := f.contradictions_detected ++ [record] }

/-! ### Evaluator: src/services/evaluator.py -/

/-- Python `dict.get(key, default)` over an association list. -/
def dictGetD {κ ν : Type} [BEq κ] (d : List (κ × ν)) (k : κ) (dflt : ν) : ν :=
  match d.find? (fun kv => kv.1 == k) with
  | some kv => kv.2
  | none => dflt

/-- `Evaluator.DEFAULT_REPUTATION_WEIGHTS`. -/
def DEFAULT_REPUTATION_WEIGHTS : List (String × ℚ) :=
  [("arxiv", 19/20), ("web", 7/10), ("memory", 3/5), ("rag", 4/5)]

/-- The state of an `Evaluator` after `__init__`.  `recencyOf` stands for
`self._calculate_recency_score` (a function of `source_date` given the fixed
`max_age_days`); the exact real-valued source function is modelled separately
as `_calculate_recency_score` below, and the quality/filtering claims are
proved for every recency valuation. -/
structure Evaluator where
  reputation_weights : List (String × ℚ)
  quality_threshold : ℚ
  dedup_threshold : ℚ
  max_age_days : ℤ
  recencyOf : Option ℤ → ℚ

/-- `Evaluator.__init__`: thresholds are clamped to `[0,1]`,
`max_age_days` to `≥ 1`. -/
def Evaluator.init (reputation_weights : List (String × ℚ))
    (quality_threshold dedup_threshold : ℚ) (max_age_days : ℤ)
    (recencyOf : Option ℤ → ℚ) : Evaluator :=
  { reputation_weights := reputation_weights,
    quality_threshold := max 0 (min 1 quality_threshold),
    dedup_threshold := max 0 (min 1 dedup_threshold),
    max_age_days := max 1 max_age_days,
    recencyOf := recencyOf }

/-! Python string primitives, implemented by structural recursion over the
character list (the core `String` functions use well-founded recursion and do
not evaluate definitionally). -/

/-- Python `str.lower()`. -/
def pyLower (s : String) : String := ⟨s.data.map Char.toLower⟩

/-- Python `str.split()` (split on whitespace runs, no empty tokens):
the accumulator holds the current token reversed. -/
def pySplitWsAux : List Char → List Char → List String
  | [], acc => if acc = [] then [] else [String.mk acc.reverse]
  | c :: cs, acc =>
    if c.isWhitespace then
      (if acc = [] then [] else [String.mk acc.reverse]) ++ pySplitWsAux cs []
    else pySplitWsAux cs (c :: acc)

def pySplitWs (s : String) : List String := pySplitWsAux s.data []

/-- Does `needle` occur at the start of `hay`? -/
def charsStartWith : List Char → List Char → Bool
  | [], _ => true
  | _ :: _, [] => false
  | n :: ns, h :: hs => n == h && charsStartWith ns hs

/-- Substring occurrence over character lists. -/
def charsContain (hay needle : List Char) : Bool :=
  match hay with
  | [] => needle == []
  | _ :: rest => charsStartWith needle hay || charsContain rest needle

/-- Python `needle in hay` for strings. -/
def containsSub (hay needle : String) : Bool :=
  if needle.data = [] then true else charsContain hay.data needle.data

/-- Python `s[:n]` (by code point, as in Python). -/
def pyTake (s : String) (n : ℕ) : String := ⟨s.data.take n⟩

/-- Python `str.strip()` (whitespace from both ends). -/
def pyStrip (s : String) : String :=
  ⟨((s.data.dropWhile Char.isWhitespace).reverse.dropWhile
      Char.isWhitespace).reverse⟩

/-- Python `sep.join(parts)`. -/
def joinWith (sep : String) : List String → String
  | [] => ""
  | [x] => x
  | x :: y :: xs => x ++ sep ++ joinWith sep (y :: xs)

/-- The token set (`set(text.lower().split())`) of a text, as a
duplicate-free list. -/
def tokensOf (text : String) : List String := (pySplitWs (pyLower text)).dedup

/-- `Evaluator._calculate_text_similarity`: token-set Jaccard similarity of
the lower-cased whitespace tokenizations. -/
def _calculate_text_similarity (text1 text2 : String) : ℚ :=
  let tokens1 := tokensOf text1
  let tokens2 := tokensOf text2
  if tokens1 = [] ∨ tokens2 = [] then 0
  else
    let intersection := (tokens1.filter (fun t => decide (t ∈ tokens2))).length
    let union := (tokens1 ++ tokens2.filter (fun t => decide (t ∉ tokens1))).length
    if 0 < union then (intersection : ℚ) / (union : ℚ) else 0

/-- `Evaluator._calculate_redundancy_penalty`: maximal similarity to the top-5
higher-scored chunks, mapped through the ramp. -/
def _calculate_redundancy_penalty (E : Evaluator) (chunk : ContextChunk)
    (higher_scored_chunks : List ContextChunk) : ℚ :=
  if higher_scored_chunks = [] then 0
  else
    let max_similarity := (higher_scored_chunks.take 5).foldl
      (fun m h => max m (_calculate_text_similarity chunk.text h.text)) 0
    if E.dedup_threshold < max_similarity then 1
    else if (7 : ℚ)/10 < max_similarity then (max_similarity - 7/10) / (2/10)
    else 0

/-- `Evaluator.calculate_quality_score` with the default weight dictionary
(the optional `weights` override is never passed at the modelled call sites,
and the unused `query` parameter is dropped).  `higher_scored_chunks = []`
models `None` (both are falsy in the source guard). -/
def calculate_quality_score (E : Evaluator) (chunk : ContextChunk)
    (higher_scored_chunks : List ContextChunk) : ℚ × QualityScoring :=
  let rep_score := dictGetD E.reputation_weights chunk.source_type.value (1/2)
  let recencyScore := E.recencyOf chunk.source_date
  let relevance := chunk.semantic_relevance
  let redundancy_penalty :=
    if higher_scored_chunks = [] then 0
    else _calculate_redundancy_penalty E chunk higher_scored_chunks
  let total_score := (3/10 : ℚ) * rep_score + (2/10) * recencyScore +
    (4/10) * relevance + (-(1/10)) * redundancy_penalty
  let total_score := max 0 (min 1 total_score)
  (total_score,
   { source_reputation := rep_score, recency_score := recencyScore,
     semantic_relevance := relevance, redundancy_penalty := redundancy_penalty })

/-- One entry of the `scored_chunks` list: `(chunk, score, components)`. -/
abbrev ScoredChunk := ContextChunk × ℚ × QualityScoring

/-- Stable descending insertion by a key (the specification of the Python
stable `list.sort(key=..., reverse=True)`): an element is placed before the
first element whose key is `≤` its own, so equal keys keep their original
relative order. -/
def insertDescBy {α β : Type} [LinearOrder β] (key : α → β) (x : α) :
    List α → List α
  | [] => [x]
  | y :: ys =>
    if key y ≤ key x then x :: y :: ys else y :: insertDescBy key x ys

/-- Stable descending sort by a key; implements the same stable-sort
specification as Python `list.sort(key=..., reverse=True)` (the output of a stable sort is uniquely determined by the comparator and the input order). -/
def sortDescBy {α β : Type} [LinearOrder β] (key : α → β) (l : List α) :
    List α :=
  l.foldr (insertDescBy key) []

/-- `scored_chunks.sort(key=lambda x: x[1], reverse=True)`. -/
def sortByScoreDesc (l : List ScoredChunk) : List ScoredChunk :=
  sortDescBy (fun x => x.2.1) l

/-- The inner `for kept_chunk in kept_chunks` duplicate scan of
`Evaluator.filter_context`: true iff some already-kept chunk has text
similarity above the dedup threshold. -/
def findDuplicate (E : Evaluator) (text : String) :
    List FilteredChunk → Bool
  | [] => false
  | k :: ks =>
    if E.dedup_threshold < _calculate_text_similarity text k.text then true
    else findDuplicate E text ks

/-- The removed-chunk record built by `filter_context` for a given reason. -/
def mkRemovedRecord (chunk : ContextChunk) (reason : FilteringDecision)
    (score : ℚ) : RemovedChunkRecord :=
  { original_chunk_id := chunk.id, reason := reason, quality_score := score,
    source := chunk.source_type.value, text_preview := pyTake chunk.text 200 }

/-- The main filtering loop of `Evaluator.filter_context` (the walk over the
sorted scored chunks, carrying `kept_chunks`, `removed_chunks` and the
`filtered` context that receives `add_filtered_chunk` calls). -/
def filterLoop (E : Evaluator) :
    List ScoredChunk → List FilteredChunk → List RemovedChunkRecord →
    FilteredContext →
    List FilteredChunk × List RemovedChunkRecord × FilteredContext
  | [], kept, removed, filtered => (kept, removed, filtered)
  | (chunk, score, components) :: rest, kept, removed, filtered =>
    if E.quality_threshold ≤ score then
      if findDuplicate E chunk.text kept then
        filterLoop E rest kept
          (removed ++ [mkRemovedRecord chunk .deduplicated score]) filtered
      else
        let filtered_chunk : FilteredChunk :=
          { toContextChunk := chunk, quality_score := score,
            quality_components := some components,
            filtering_decision := .kept }
        filterLoop E rest (kept ++ [filtered_chunk]) removed
          (filtered.add_filtered_chunk filtered_chunk)
    else
      filterLoop E rest kept
        (removed ++ [mkRemovedRecord chunk .low_quality score]) filtered

/-- `Evaluator._contains_potential_contradiction`: keyword-pair heuristic
(`kw1 in text1.lower() and kw2 in text2.lower()` for some pair). -/
def _contains_potential_contradiction (text1 text2 : String) : Bool :=
  let conflict_keywords : List (String × String) :=
    [("cannot", "can"), ("is not", "is"), ("false", "true"),
     ("yes", "no"), ("rejects", "accepts")]
  let text1_lower := pyLower text1
  let text2_lower := pyLower text2
  conflict_keywords.any
    (fun kw => containsSub text1_lower kw.1 && containsSub text2_lower kw.2)

/-- The `for chunk2 in chunks[i+1:]` inner loop of
`Evaluator._detect_contradictions`. -/
def pairsWith (chunk1 : FilteredChunk) :
    List FilteredChunk → List (FilteredChunk × FilteredChunk)
  | [] => []
  | chunk2 :: rest =>
    (if chunk1.source_type ≠ chunk2.source_type ∧
        _contains_potential_contradiction chunk1.text chunk2.text = true
     then [(chunk1, chunk2)] else []) ++ pairsWith chunk1 rest

/-- The `contradiction_pairs` list built by
`Evaluator._detect_contradictions`. -/
def _detect_contradiction_pairs :
    List FilteredChunk → List (FilteredChunk × FilteredChunk)
  | [] => []
  | chunk1 :: rest => pairsWith chunk1 rest ++ _detect_contradiction_pairs rest

/-- `Evaluator._detect_contradictions`: builds `contradiction_pairs` and logs
a warning when it is non-empty, but — per its own comment ("not adding them
yet") — never calls `add_contradiction`; the filtered context is returned
unchanged. -/
def _detect_contradictions (chunks : List FilteredChunk)
    (filtered_context : FilteredContext) : FilteredContext :=
  let _contradiction_pairs := _detect_contradiction_pairs chunks
  filtered_context

/-- `Evaluator.filter_context`.  The initial `FilteredContext(...)`
construction succeeds (its `__post_init__` check `0 > len(chunks)` is false),
so it is written with `FilteredContext.make`; `filter_ctx_construct_ok` below
connects it to the raising constructor. -/
def filter_context (E : Evaluator) (aggregated : AggregatedContext) :
    FilteredContext :=
  let filtered := FilteredContext.make aggregated.query_id
    aggregated.chunks.length 0 [] 0 0 E.quality_threshold [] []
  let scored_chunks : List ScoredChunk := aggregated.chunks.map
    (fun chunk =>
      let sc := calculate_quality_score E chunk []
      (chunk, sc.1, sc.2))
  let scored_chunks := sortByScoreDesc scored_chunks
  let r := filterLoop E scored_chunks [] [] filtered
  let filtered := r.2.2
  let filtered := r.2.1.foldl FilteredContext.add_removed_chunk filtered
  let filtered := _detect_contradictions r.1 filtered
  filtered

theorem filter_ctx_construct_ok (E : Evaluator) (agg : AggregatedContext) :
    FilteredContext.construct agg.query_id agg.chunks.length 0 [] 0 0
      E.quality_threshold [] [] =
    .ok (FilteredContext.make agg.query_id agg.chunks.length 0 [] 0 0
      E.quality_threshold [] []) := by
  simp [FilteredContext.construct]

/-! ### `Evaluator._calculate_recency_score` over ℝ

Dates are epoch seconds; `(now - source_date).days` is floor division of the
second difference by 86400 (`Int.ediv`, Python floor semantics).
`self.max_age_days` is the field after the `__init__` clamp `max(1, ...)`. -/

/-- `Evaluator._calculate_recency_score`: `0.5` for a missing date, `0.9` for
a date after `now`, otherwise `exp(-age_days / max_age_days)` clamped to
`[0,1]` (the `age_days < 0` branch is kept from the source although it is
unreachable once `source_date ≤ now`). -/
noncomputable def _calculate_recency_score (max_age_days : ℤ) (now : ℤ)
    (source_date : Option ℤ) : ℝ :=
  match source_date with
  | none => 1/2
  | some d =>
    if now < d then 9/10
    else
      let age_days : ℤ := (now - d).ediv 86400
      if age_days < 0 then 1
      else
        max 0 (min 1 (Real.exp (-(1 / (max_age_days : ℝ)) * (age_days : ℝ))))

/-- The `__init__` clamp producing `self.max_age_days`. -/
def evaluatorMaxAge (max_age_days : ℤ) : ℤ := max 1 max_age_days

/-! ### Data model: src/models/query.py and src/models/response.py -/

/-- `Query` dataclass (fields not consulted by the modelled code paths —
timestamp, preferences, status machinery — are omitted). -/
structure Query where
  id : String
  user_id : String
  session_id : String
  text : String
deriving DecidableEq, Repr

/-- `ResponseSection` dataclass. -/
structure ResponseSection where
  heading : String
  content : String
  confidence : ℚ
  sources : List String
  order : ℕ
deriving DecidableEq, Repr

/-- `Perspective` dataclass. -/
structure Perspective where
  viewpoint : String
  summary : String
  confidence : ℚ
  sources : List String
  weight : ℚ
deriving DecidableEq, Repr

/-- `SourceAttribution` dataclass. -/
structure SourceAttribution where
  id : String
  type : String
  title : String
  url : Option String
  relevance : ℚ
  contribution : String
deriving DecidableEq, Repr

/-- `ResponseQuality` dataclass (defaults: `0.8` for the three scores). -/
structure ResponseQuality where
  has_contradictions : Bool
  degraded_mode : Bool
  completeness : ℚ
  informativeness : ℚ
  confidence : ℚ
deriving DecidableEq, Repr

/-- `ResponseQuality()` with all defaults. -/
def ResponseQuality.default : ResponseQuality :=
  { has_contradictions := false, degraded_mode := false,
    completeness := 4/5, informativeness := 4/5, confidence := 4/5 }

/-- `FinalResponse` dataclass (inert `id`/`timestamp` omitted). -/
structure FinalResponse where
  query_id : String
  user_id : String
  session_id : String
  answer : String
  sections : List ResponseSection
  perspectives : Option (List Perspective)
  overall_confidence : ℚ
  generation_time_ms : ℚ
  sources : List SourceAttribution
  sources_consulted : List String
  response_quality : ResponseQuality
deriving DecidableEq, Repr

/-- `FinalResponse(query_id=..., user_id=..., session_id=..., answer=...)`
with every other field at its dataclass default. -/
def FinalResponse.init (query_id user_id session_id answer : String) :
    FinalResponse :=
  { query_id := query_id, user_id := user_id, session_id := session_id,
    answer := answer, sections := [], perspectives := none,
    overall_confidence := 4/5, generation_time_ms := 0, sources := [],
    sources_consulted := [], response_quality := ResponseQuality.default }

/-- `FinalResponse.add_section`: stamps `order` with the current section
count and appends. -/
def FinalResponse.add_section (r : FinalResponse) (section0 : ResponseSection) :
    FinalResponse :=
  { r with sections := r.sections ++ [{ section0 with order := r.sections.length }] }

/-- `FinalResponse.add_source`: appends, and appends the source type to
`sources_consulted` if not already present. -/
def FinalResponse.add_source (r : FinalResponse) (source : SourceAttribution) :
    FinalResponse :=
  { r with sources := r.sources ++ [source],
           sources_consulted :=
             if source.type ∈ r.sources_consulted then r.sources_consulted
             else r.sources_consulted ++ [source.type] }

/-- `FinalResponse.add_perspective`. -/
def FinalResponse.add_perspective (r : FinalResponse) (p : Perspective) :
    FinalResponse :=
  { r with perspectives := some ((r.perspectives.getD []) ++ [p]) }

/-! ### Synthesizer: src/services/synthesizer.py -/

/-- The state of a `Synthesizer` after `__init__`. -/
structure Synthesizer where
  model_name : String
  max_response_length : ℕ

/-- `Synthesizer(...)` defaults. -/
def Synthesizer.default : Synthesizer :=
  { model_name := "gemini-2.0-flash", max_response_length := 5000 }

/-- The `source_section_names` lookup of `_organize_into_sections`; every
`SourceType` value is a key of the dict, so the `.title()` fallback is
unreachable. -/
def sectionNameOf (st : SourceType) : String :=
  match st with
  | .rag => "From Your Documents"
  | .web => "From Web Search"
  | .arxiv => "From Academic Papers"
  | .memory => "From Conversation History"

/-- Append a chunk to its named group, preserving dict insertion order
(Python dicts iterate in key-insertion order). -/
def groupInsert (groups : List (String × List FilteredChunk)) (name : String)
    (c : FilteredChunk) : List (String × List FilteredChunk) :=
  match groups with
  | [] => [(name, [c])]
  | (n, cs) :: rest =>
    if n = name then (n, cs ++ [c]) :: rest
    else (n, cs) :: groupInsert rest name c

/-- `Synthesizer._organize_into_sections`: group by source kind (dict
insertion order), then stable sort by descending bucket size. -/
def _organize_into_sections (chunks : List FilteredChunk) :
    List (String × List FilteredChunk) :=
  let sections := chunks.foldl
    (fun groups c => groupInsert groups (sectionNameOf c.source_type) c) []
  sortDescBy (fun s => s.2.length) sections

/-- The characters before the first `.` (Python `text.split('.')[0]`). -/
def charsBeforeDot : List Char → List Char
  | [] => []
  | c :: cs => if c = '.' then [] else c :: charsBeforeDot cs

/-- The per-chunk extraction of `_generate_summary`: first sentence (up to
the first `.`) if the stripped text contains one, else the first 100
characters. -/
def firstSentenceOrPrefix (text : String) : String :=
  let t := pyStrip text
  if containsSub t "." then String.mk (charsBeforeDot t.data) ++ "."
  else pyTake t 100

/-- `Synthesizer._generate_summary`. -/
def _generate_summary (S : Synthesizer) (chunks : List FilteredChunk) :
    String :=
  if chunks = [] then "No relevant information found."
  else
    let top_chunks := chunks.take 3
    let summary_parts :=
      ["Based on available sources, here\x27s what I found:\n"] ++
      top_chunks.map (fun c => "• " ++ firstSentenceOrPrefix c.text)
    let summary := joinWith "\n" summary_parts
    if S.max_response_length < summary.length then
      pyTake summary (S.max_response_length - 3) ++ "..."
    else summary

/-- `Synthesizer._create_response_section`.  `list(set(...))` for the source
ids is modelled as first-occurrence deduplication (equal as a set; the CPython
set iteration order is unspecified). -/
def _create_response_section (title : String) (chunks : List FilteredChunk)
    (order : ℕ) : ResponseSection :=
  { heading := title,
    content := joinWith "\n\n" ((chunks.take 5).map (fun c => c.text)),
    confidence :=
      if chunks = [] then 1/2
      else (chunks.map (fun c => c.quality_score)).sum / (chunks.length : ℚ),
    sources := (chunks.map (fun c => c.source_id)).dedup,
    order := order }

/-- The `seen_sources` loop of `Synthesizer._add_source_attributions`. -/
def addAttributionsLoop (chunks : List FilteredChunk) (seen : List String)
    (r : FinalResponse) : FinalResponse :=
  match chunks with
  | [] => r
  | c :: rest =>
    if c.source_id ∈ seen then addAttributionsLoop rest seen r
    else
      let attribution : SourceAttribution :=
        { id := c.source_id, type := c.source_type.value,
          title := c.source_title.getD "Untitled", url := c.source_url,
          relevance := c.semantic_relevance,
          contribution := "Contributed to " ++ c.source_type.value ++ " section" }
      addAttributionsLoop rest (seen ++ [c.source_id]) (r.add_source attribution)

/-- `Synthesizer._add_source_attributions`. -/
def _add_source_attributions (r : FinalResponse)
    (chunks : List FilteredChunk) : FinalResponse :=
  addAttributionsLoop chunks [] r

/-- `Synthesizer._add_perspectives_from_contradictions`: two perspectives per
contradiction, capped at the first 2 contradictions. -/
def _add_perspectives_from_contradictions (r : FinalResponse)
    (contradictions : List ContradictionRecord) : FinalResponse :=
  (contradictions.take 2).foldl
    (fun resp contradiction =>
      let p1 : Perspective :=
        { viewpoint := contradiction.claim_1,
          summary := "Supported by " ++ contradiction.claim_1_source,
          confidence := 7/10, sources := [contradiction.claim_1_source],
          weight := 1/2 }
      let p2 : Perspective :=
        { viewpoint := contradiction.claim_2,
          summary := "Supported by " ++ contradiction.claim_2_source,
          confidence := 7/10, sources := [contradiction.claim_2_source],
          weight := 1/2 }
      (resp.add_perspective p1).add_perspective p2) r

/-- `Synthesizer._calculate_confidence`. -/
def _calculate_confidence (filtered_context : FilteredContext)
    (section_count : ℕ) : ℚ :=
  let base_confidence := filtered_context.average_quality_score
  let section_boost := min (1/10 : ℚ) ((section_count : ℚ) * (5/100))
  let contradiction_penalty : ℚ :=
    if filtered_context.contradictions_detected ≠ [] then 2/10 else 0
  max 0 (min 1 (base_confidence + section_boost - contradiction_penalty))

/-- `Synthesizer.generate_response`.  The wall-clock
`generation_time_ms` stamp is modelled as `0`; on the empty-context early
return the field is never stamped in the source and stays at its dataclass
default `0.0`. -/
def generate_response (S : Synthesizer) (query : Query)
    (filtered_context : FilteredContext) : FinalResponse :=
  if filtered_context.chunks = [] then
    let answer :=
      "I couldn\x27t find relevant information to answer your query: \"" ++
      query.text ++
      "\"\n\nPlease try:\n- Rephrasing your question\n- Breaking it into smaller questions\n- Providing source documents if using RAG"
    let response := FinalResponse.init query.id query.user_id query.session_id
      answer
    { response with
      response_quality :=
        { response.response_quality with completeness := 0, degraded_mode := true },
      overall_confidence := 1/5 }
  else
    let sections_data := _organize_into_sections filtered_context.chunks
    let answer := _generate_summary S filtered_context.chunks
    let response := FinalResponse.init query.id query.user_id query.session_id
      answer
    let response := (sections_data.enum).foldl
      (fun resp td =>
        resp.add_section (_create_response_section td.2.1 td.2.2 td.1)) response
    let response := _add_source_attributions response filtered_context.chunks
    let response :=
      if filtered_context.contradictions_detected ≠ [] then
        let response := _add_perspectives_from_contradictions response
          filtered_context.contradictions_detected
        { response with
          response_quality :=
            { response.response_quality with has_contradictions := true } }
      else response
    let confidence := _calculate_confidence filtered_context
      response.sections.length
    { response with
      overall_confidence := confidence,
      response_quality :=
        { response.response_quality with
          confidence := confidence,
          completeness := min 1 ((filtered_context.chunks.length : ℚ) / 10),
          informativeness := filtered_context.average_quality_score } }

/-! ### Orchestrator: src/services/orchestrator.py -/

/-- `WorkflowStep` enum. -/
inductive WorkflowStep
  | retrieval
  | evaluation
  | synthesis
  | memory
  | complete
  | error
deriving DecidableEq, Repr

/-- `WorkflowStep.value`. -/
def WorkflowStep.value : WorkflowStep → String
  | .retrieval => "retrieval"
  | .evaluation => "evaluation"
  | .synthesis => "synthesis"
  | .memory => "memory"
  | .complete => "complete"
  | .error => "error"

/-- A Python dict key as it occurs in `WorkflowState.step_times`.  Python
dict keys are heterogeneous; `record_step_start` inserts `str` keys
(`step.value`), while `record_step_complete` tests membership of the
`WorkflowStep` enum member itself (`step in self.step_times`).  `WorkflowStep`
derives from `Enum` only (not `str`), so an enum member never compares equal
to a string key. -/
inductive PyKey
  | str (s : String)
  | step (w : WorkflowStep)
deriving DecidableEq, Repr

/-- Python `d[k] = v` over an insertion-ordered association list. -/
def dictSet {κ ν : Type} [BEq κ] (d : List (κ × ν)) (k : κ) (v : ν) :
    List (κ × ν) :=
  match d with
  | [] => [(k, v)]
  | (k0, v0) :: rest =>
    if k0 == k then (k0, v) :: rest else (k0, v0) :: dictSet rest k v

/-- Python `d.get(k)` / `d[k]` lookup. -/
def dictGet? {κ ν : Type} [BEq κ] (d : List (κ × ν)) (k : κ) : Option ν :=
  (d.find? (fun kv => kv.1 == k)).map (fun kv => kv.2)

/-- `WorkflowState` (the intermediate-state references `query`,
`aggregated_context`, `filtered_context`, `final_response` are tracked only
where a claim needs them; `aggregated_context` is `none` until the retrieval
step stores it on success). -/
structure WorkflowState where
  query_id : String
  start_time : ℚ
  step_times : List (PyKey × ℚ)
  step_errors : List (String × String)
  aggregated_context : Option AggregatedContext
  current_step : Option WorkflowStep
  completed_steps : List WorkflowStep
  failed_steps : List WorkflowStep
deriving Repr

/-- `WorkflowState.__init__(query_id)` at wall-clock time `t`. -/
def WorkflowState.init (query_id : String) (t : ℚ) : WorkflowState :=
  { query_id := query_id, start_time := t, step_times := [],
    step_errors := [], aggregated_context := none, current_step := none,
    completed_steps := [], failed_steps := [] }

/-- `WorkflowState.record_step_start` at wall-clock time `t`:
`self.step_times[step.value] = time.time()`. -/
def WorkflowState.record_step_start (ws : WorkflowState) (step : WorkflowStep)
    (t : ℚ) : WorkflowState :=
  { ws with current_step := some step,
            step_times := dictSet ws.step_times (PyKey.str step.value) t }

/-- `WorkflowState.record_step_complete` at wall-clock time `t`:
the guard is `if step in self.step_times` — membership of the enum member
among the (string) keys — and only when it holds is the entry replaced by the
elapsed time `t - self.step_times[step.value]`.  (The lookup inside the guard
uses `getD 0`: in Python it would raise `KeyError` when absent, but the
branch requires the key test to have succeeded.) -/
def WorkflowState.record_step_complete (ws : WorkflowState)
    (step : WorkflowStep) (t : ℚ) : WorkflowState :=
  let times :=
    if ws.step_times.any (fun kv => kv.1 == PyKey.step step) then
      let start := (dictGet? ws.step_times (PyKey.str step.value)).getD 0
      dictSet ws.step_times (PyKey.str step.value) (t - start)
    else ws.step_times
  { ws with step_times := times,
            completed_steps := ws.completed_steps ++ [step] }

/-- `WorkflowState.record_step_error`. -/
def WorkflowState.record_step_error (ws : WorkflowState) (step : WorkflowStep)
    (errorMsg : String) : WorkflowState :=
  { ws with failed_steps := ws.failed_steps ++ [step],
            step_errors := dictSet ws.step_errors step.value errorMsg }

/-! #### Retrieval (`_retrieve_context_with_retry` and the Step-1 handler of
`process_query`)

The future of a tool either completes at some wall-clock offset `t` (seconds from
the start of retrieval) or is still outstanding when the overall
`as_completed` deadline elapses.  The run list is given in the order `as_completed` yields
futures (completion order), with never-finishing tasks after every on-time
completion.  When the deadline elapses with tasks still outstanding,
`as_completed` raises `concurrent.futures.TimeoutError` out of the `for`
loop; the locally built `aggregated` object is lost with the exception. -/

/-- What `future.result(...)` produces for one tool: a `ToolResult` (with its
`is_successful()` value and chunks) or a raised exception. -/
inductive ToolCallResult
  | returns (chunks : List ContextChunk) (is_successful : Bool)
  | raises (msg : String)
deriving Repr

/-- One tool invocation as the retrieval loop observes it. -/
inductive ToolOutcome
  | completes (t : ℚ) (result : ToolCallResult)
  | outstanding
deriving Repr

/-- A registered tool together with its outcome for this query. -/
structure ToolRun where
  tool_name : String
  outcome : ToolOutcome
deriving Repr

/-- The `for future in as_completed(...)` loop of
`_retrieve_context_with_retry`, carrying the accumulators
`(aggregated chunks, sources_succeeded, sources_failed,
total_chunks_before_dedup)`.  An `outstanding` (or past-deadline) run makes
`as_completed` raise, discarding the accumulators. -/
def retrieveLoop (timeout_seconds : ℚ) (query_id : String) :
    List ToolRun → List ContextChunk → List String → List String → ℕ →
    Except String (List ContextChunk × List String × List String × ℕ)
  | [], chunks, succeeded, failed, before => .ok (chunks, succeeded, failed, before)
  | run :: rest, chunks, succeeded, failed, before =>
    match run.outcome with
    | .outstanding => .error "retrieval deadline elapsed with tasks outstanding"
    | .completes t result =>
      if timeout_seconds < t then
        .error "retrieval deadline elapsed with tasks outstanding"
      else if timeout_seconds - t ≤ 0 then
        -- `remaining <= 0`: tool skipped, recorded failed, loop continues
        retrieveLoop timeout_seconds query_id rest chunks succeeded
          (failed ++ [run.tool_name]) before
      else
        match result with
        | .returns cs true =>
          retrieveLoop timeout_seconds query_id rest
            (chunks ++ cs.map (fun c => { c with query_id := query_id }))
            (succeeded ++ [run.tool_name]) failed (before + cs.length)
        | .returns _ false =>
          retrieveLoop timeout_seconds query_id rest chunks succeeded
            (failed ++ [run.tool_name]) before
        | .raises _ =>
          retrieveLoop timeout_seconds query_id rest chunks succeeded
            (failed ++ [run.tool_name]) before

/-- `Orchestrator._retrieve_context_with_retry` (the unused `max_retries`
parameter of the source is dropped; the body never reads it). -/
def _retrieve_context_with_retry (timeout_seconds : ℚ) (query : Query)
    (runs : List ToolRun) : Except String AggregatedContext :=
  match retrieveLoop timeout_seconds query.id runs [] [] [] 0 with
  | .error e => .error e
  | .ok (chunks, succeeded, failed, before) =>
    .ok { query_id := query.id, chunks := chunks,
          retrieval_time_ms := 0,
          sources_consulted := succeeded, sources_failed := failed,
          total_chunks_before_dedup := before,
          total_chunks_after_dedup := chunks.length }

/-- Step 1 of `Orchestrator.process_query` (lines 208–227): on a retrieval
timeout the handler records the step failed and falls back to
`workflow_state.aggregated_context or AggregatedContext(query_id=query.id)`;
`workflow_state.aggregated_context` is only assigned after a successful
retrieval, so in this handler it is still `None` and the fallback is a fresh
empty `AggregatedContext`. -/
def retrievalStep (timeout_seconds : ℚ) (query : Query) (runs : List ToolRun)
    (ws : WorkflowState) (tstart tend : ℚ) :
    AggregatedContext × WorkflowState :=
  let ws := ws.record_step_start .retrieval tstart
  match _retrieve_context_with_retry timeout_seconds query runs with
  | .ok aggregated_context =>
    (aggregated_context,
     { ws with aggregated_context := some aggregated_context
     }.record_step_complete .retrieval tend)
  | .error e =>
    ((ws.aggregated_context).getD (AggregatedContext.init query.id),
     ws.record_step_error .retrieval ("Timeout: " ++ e))

/-- The `FilteredChunk(...)` conversion of the no-evaluator branch of Step 2
(only the listed fields are passed; everything else gets its dataclass
default — in particular `query_id` is `""` and `source_date` is `None`). -/
def convertChunk (c : ContextChunk) : FilteredChunk :=
  { id := c.id, query_id := "", source_type := c.source_type, text := c.text,
    semantic_relevance := c.semantic_relevance, source_reputation := 0,
    recency_score := 0, source_id := c.source_id,
    source_title := c.source_title, source_url := c.source_url,
    source_date := none, quality_score := c.semantic_relevance,
    quality_components := none, filtering_decision := .kept }

/-- Step 2 of `Orchestrator.process_query` (lines 229–279): the evaluation
step.  `filterCall` is what `self.evaluator.filter_context(...)` did
(`.error` models a raised exception); `hasEvaluator` is the truthiness of
`self.evaluator`.  `aggregated_context` is the `AggregatedContext` coming
from Step 1 (never a `FilteredContext`, so the `isinstance` branches resolve
statically).  Returns the `filtered_context` handed to synthesis and the
updated workflow state. -/
def evaluationStep (hasEvaluator : Bool)
    (filterCall : Except String FilteredContext)
    (aggregated_context : AggregatedContext) (query : Query)
    (ws : WorkflowState) (tstart tend : ℚ) :
    FilteredContext × WorkflowState :=
  let ws := ws.record_step_start .evaluation tstart
  if hasEvaluator = true ∧ aggregated_context.chunks ≠ [] then
    match filterCall with
    | .ok filtered_context =>
      (filtered_context, ws.record_step_complete .evaluation tend)
    | .error e =>
      -- graceful-degradation handler: FilteredContext(query_id=query.id,
      -- chunks=[], average_quality_score=0.5)
      (FilteredContext.make query.id 0 0 [] 0 (1/2) (3/5) [] [],
       ws.record_step_error .evaluation e)
  else
    -- evaluator missing or no chunks: convert the AggregatedContext
    (FilteredContext.make query.id 0 0
       (aggregated_context.chunks.map convertChunk) 0
       (if aggregated_context.chunks ≠ [] then
          (aggregated_context.chunks.map (fun c => c.semantic_relevance)).sum /
            (aggregated_context.chunks.length : ℚ)
        else 1/2)
       (3/5) [] [],
     ws.record_step_complete .evaluation tend)

/-- A registered retrieval tool as `register_tool`/`get_status` see it. -/
structure Tool where
  tool_name : String
deriving DecidableEq, Repr

/-- The orchestrator state consulted by `register_tool` and `get_status`. -/
structure Orchestrator where
  tools : List Tool
  max_workers : ℕ
  use_crew : Bool
  crew_initialized : Bool
deriving DecidableEq, Repr

/-- `Orchestrator(...)` with default arguments (`tools=None` becomes `[]`). -/
def Orchestrator.default : Orchestrator :=
  { tools := [], max_workers := 4, use_crew := false, crew_initialized := false }

/-- `Orchestrator.register_tool`. -/
def register_tool (o : Orchestrator) (tool : Tool) : Orchestrator :=
  { o with tools := o.tools ++ [tool] }

/-- The dictionary returned by `Orchestrator.get_status`. -/
structure OrchestratorStatus where
  ready : Bool
  tools_registered : ℕ
  tool_names : List String
  max_workers : ℕ
  crew_enabled : Bool
  crew_initialized : Bool
deriving DecidableEq, Repr

/-- `Orchestrator.get_status`. -/
def get_status (o : Orchestrator) : OrchestratorStatus :=
  { ready := decide (0 < o.tools.length),
    tools_registered := o.tools.length,
    tool_names := o.tools.map (fun t => t.tool_name),
    max_workers := o.max_workers,
    crew_enabled := o.use_crew,
    crew_initialized := o.crew_initialized }

/-! ### Concrete instances used by the witnesses and counterexamples

Every concrete chunk below carries `source_date = none`, for which the source
recency function returns `0.5` (see `_calculate_recency_score`), so the
default evaluator instance fixes `recencyOf` to the constant `1/2`. -/

/-- `Evaluator()` with all default arguments, recency valuation fixed to the
missing-date value `0.5` (all concrete inputs below have no `source_date`). -/
def defaultEvaluator : Evaluator :=
  Evaluator.init DEFAULT_REPUTATION_WEIGHTS (3/5) (9/10) 365 (fun _ => 1/2)

/-- A well-formed `ContextChunk` with the given id, source kind, text and
semantic relevance, and no source date. -/
def sampleChunk (id : String) (st : SourceType) (text : String) (rel : ℚ) :
    ContextChunk :=
  { id := id, query_id := "q", source_type := st, text := text,
    semantic_relevance := rel, source_reputation := 1/2, recency_score := 1/2,
    source_id := "src-" ++ id, source_title := some ("title-" ++ id),
    source_url := none, source_date := none }

/-! ### Helper lemmas about the filtering pipeline -/

theorem insertDescBy_length {α β : Type} [LinearOrder β] (key : α → β)
    (x : α) (l : List α) : (insertDescBy key x l).length = l.length + 1 := by
  induction l with
  | nil => rfl
  | cons y ys ih =>
    simp only [insertDescBy]
    split
    · simp
    · simp [ih]

theorem sortDescBy_cons {α β : Type} [LinearOrder β] (key : α → β) (y : α)
    (ys : List α) :
    sortDescBy key (y :: ys) = insertDescBy key y (sortDescBy key ys) := rfl

theorem sortDescBy_length {α β : Type} [LinearOrder β] (key : α → β)
    (l : List α) : (sortDescBy key l).length = l.length := by
  induction l with
  | nil => rfl
  | cons y ys ih => rw [sortDescBy_cons, insertDescBy_length, ih]; rfl

/-- The invariant of the main filtering walk: the chunk list of the context tracks
`kept_chunks`, `filtered_chunk_count` tracks its length, at most one chunk is
kept per scored input, and the fields `average_quality_score`,
`original_chunk_count`, `contradictions_detected`, `query_id` are never
touched by the walk. -/
theorem filterLoop_inv (E : Evaluator) (scored : List ScoredChunk) :
    ∀ (kept : List FilteredChunk) (removed : List RemovedChunkRecord)
      (f : FilteredContext),
      f.chunks = kept → f.filtered_chunk_count = kept.length →
      ((filterLoop E scored kept removed f).2.2.chunks =
          (filterLoop E scored kept removed f).1 ∧
       (filterLoop E scored kept removed f).2.2.filtered_chunk_count =
          (filterLoop E scored kept removed f).1.length ∧
       (filterLoop E scored kept removed f).1.length ≤
          kept.length + scored.length ∧
       (filterLoop E scored kept removed f).2.2.average_quality_score =
          f.average_quality_score ∧
       (filterLoop E scored kept removed f).2.2.original_chunk_count =
          f.original_chunk_count ∧
       (filterLoop E scored kept removed f).2.2.contradictions_detected =
          f.contradictions_detected ∧
       (filterLoop E scored kept removed f).2.2.query_id = f.query_id) := by
  induction scored with
  | nil =>
    intro kept removed f h1 h2
    simp [filterLoop, h1, h2]
  | cons hd rest ih =>
    intro kept removed f h1 h2
    obtain ⟨chunk, score, comps⟩ := hd
    simp only [filterLoop]
    by_cases hq : E.quality_threshold ≤ score
    · simp only [if_pos hq]
      by_cases hdup : findDuplicate E chunk.text kept = true
      · simp only [hdup, if_true]
        obtain ⟨g1, g2, g3, g4, g5, g6, g7⟩ :=
          ih kept (removed ++ [mkRemovedRecord chunk .deduplicated score]) f h1 h2
        exact ⟨g1, g2, by simpa using Nat.le_succ_of_le g3, g4, g5, g6, g7⟩
      · simp only [hdup, if_false, Bool.false_eq_true]
        set fc : FilteredChunk :=
          { toContextChunk := chunk, quality_score := score,
            quality_components := some comps, filtering_decision := .kept }
        have h1' : (f.add_filtered_chunk fc).chunks = kept ++ [fc] := by
          simp [FilteredContext.add_filtered_chunk, h1]
        have h2' : (f.add_filtered_chunk fc).filtered_chunk_count =
            (kept ++ [fc]).length := by
          simp [FilteredContext.add_filtered_chunk, h1]
        obtain ⟨g1, g2, g3, g4, g5, g6, g7⟩ :=
          ih (kept ++ [fc]) removed (f.add_filtered_chunk fc) h1' h2'
        refine ⟨g1, g2, ?_, ?_, ?_, ?_, ?_⟩
        · have hb : (filterLoop E rest (kept ++ [fc]) removed
              (f.add_filtered_chunk fc)).1.length ≤
              kept.length + 1 + rest.length := by simpa using g3
          simp only [List.length_cons]
          omega
        · simpa [FilteredContext.add_filtered_chunk] using g4
        · simpa [FilteredContext.add_filtered_chunk] using g5
        · simpa [FilteredContext.add_filtered_chunk] using g6
        · simpa [FilteredContext.add_filtered_chunk] using g7
    · simp only [if_neg hq]
      obtain ⟨g1, g2, g3, g4, g5, g6, g7⟩ :=
        ih kept (removed ++ [mkRemovedRecord chunk .low_quality score]) f h1 h2
      exact ⟨g1, g2, by simpa using Nat.le_succ_of_le g3, g4, g5, g6, g7⟩

/-- `add_removed_chunk` folds only touch `removed_chunks`. -/
theorem foldl_add_removed_fields (records : List RemovedChunkRecord) :
    ∀ f : FilteredContext,
      ((records.foldl FilteredContext.add_removed_chunk f).chunks = f.chunks ∧
       (records.foldl FilteredContext.add_removed_chunk f).filtered_chunk_count =
          f.filtered_chunk_count ∧
       (records.foldl FilteredContext.add_removed_chunk f).average_quality_score =
          f.average_quality_score ∧
       (records.foldl FilteredContext.add_removed_chunk f).original_chunk_count =
          f.original_chunk_count ∧
       (records.foldl FilteredContext.add_removed_chunk f).contradictions_detected =
          f.contradictions_detected ∧
       (records.foldl FilteredContext.add_removed_chunk f).query_id =
          f.query_id) := by
  induction records with
  | nil => intro f; simp
  | cons r rs ih =>
    intro f
    simp only [List.foldl_cons]
    have h := ih (f.add_removed_chunk r)
    simpa [FilteredContext.add_removed_chunk] using h

/-- Field-level description of every `filter_context` output: the average
quality is whatever the initial construction left there (`0`), the kept count
is bounded by the input count, `original_chunk_count` is the input count, the
contradiction list is empty, and the count matches the kept list. -/
theorem filter_context_spec (E : Evaluator) (agg : AggregatedContext) :
    (filter_context E agg).average_quality_score = 0 ∧
    (filter_context E agg).filtered_chunk_count ≤ agg.chunks.length ∧
    (filter_context E agg).original_chunk_count = agg.chunks.length ∧
    (filter_context E agg).contradictions_detected = [] ∧
    (filter_context E agg).filtered_chunk_count =
      (filter_context E agg).chunks.length := by
  unfold filter_context
  simp only [_detect_contradictions]
  set f0 := FilteredContext.make agg.query_id agg.chunks.length 0 [] 0 0
    E.quality_threshold [] [] with hf0
  set scored := sortByScoreDesc (agg.chunks.map (fun chunk =>
    let sc := calculate_quality_score E chunk []
    (chunk, sc.1, sc.2))) with hscored
  have hchunks0 : f0.chunks = [] := by simp [hf0, FilteredContext.make]
  have hcount0 : f0.filtered_chunk_count = ([] : List FilteredChunk).length := by
    simp [hf0, FilteredContext.make]
  obtain ⟨g1, g2, g3, g4, g5, g6, g7⟩ := filterLoop_inv E scored [] [] f0
    hchunks0 hcount0
  obtain ⟨r1, r2, r3, r4, r5, r6⟩ := foldl_add_removed_fields
    (filterLoop E scored [] [] f0).2.1 (filterLoop E scored [] [] f0).2.2
  have hlen : scored.length = agg.chunks.length := by
    rw [hscored]
    unfold sortByScoreDesc
    rw [sortDescBy_length, List.length_map]
  have havg0 : f0.average_quality_score = 0 := by
    simp [hf0, FilteredContext.make]
  have horig0 : f0.original_chunk_count = agg.chunks.length := by
    simp [hf0, FilteredContext.make]
  have hcontra0 : f0.contradictions_detected = [] := by
    simp [hf0, FilteredContext.make]
  refine ⟨?_, ?_, ?_, ?_, ?_⟩
  · rw [r3, g4, havg0]
  · rw [r2, g2]
    calc (filterLoop E scored [] [] f0).1.length
        ≤ ([] : List FilteredChunk).length + scored.length := g3
      _ = agg.chunks.length := by simpa using hlen
  · rw [r4, g5, horig0]
  · rw [r5, g6, hcontra0]
  · rw [r2, g2, r1, g1]

/-- Input for the C1 failing run: a single well-formed RAG chunk of
semantic relevance `0.9`; its quality score is
`0.3·0.8 + 0.2·0.5 + 0.4·0.9 = 0.7 ≥ 0.6`, so it is kept. -/
def aggAvgBug : AggregatedContext :=
  (AggregatedContext.init "q1").add_chunk
    (sampleChunk "a1" .rag "alpha beta gamma" (9/10))

/-- C1: the claim says `average_quality_score` of every `filter_context`
result equals the arithmetic mean of the quality scores of the kept fragments (and
`0` when none is kept).  In the code the field is only computed by
`__post_init__`, which runs while the context is still empty, and
`add_filtered_chunk` never recomputes it — so the field is `0` for every
`filter_context` result, even when fragments with positive scores are kept:
here one fragment is kept with quality score `0.7`, so the mean is `0.7`,
yet the field is `0`. -/
theorem C1_average_quality_stuck_at_zero :
    (∀ (E : Evaluator) (agg : AggregatedContext),
      (filter_context E agg).average_quality_score = 0) ∧
    (filter_context defaultEvaluator aggAvgBug).chunks.map
      (fun c => c.quality_score) = [7/10] ∧
    (filter_context defaultEvaluator aggAvgBug).average_quality_score ≠ 7/10 := by
  refine ⟨fun E agg => (filter_context_spec E agg).1, by decide, ?_⟩
  rw [(filter_context_spec defaultEvaluator aggAvgBug).1]
  decide

/-- C8: for every `filter_context` output,
`filtered_chunk_count ≤ original_chunk_count`; and constructing a
`FilteredContext` whose `filtered_chunk_count` exceeds its
`original_chunk_count` is rejected by `__post_init__` with a `ValueError`. -/
theorem C8_filtered_le_original :
    (∀ (E : Evaluator) (agg : AggregatedContext),
      (filter_context E agg).filtered_chunk_count ≤
        (filter_context E agg).original_chunk_count) ∧
    (∀ (qid : String) (n m : ℕ) (chunks : List FilteredChunk)
       (time avg th : ℚ) (rem : List RemovedChunkRecord)
       (con : List ContradictionRecord), n < m →
      FilteredContext.construct qid n m chunks time avg th rem con =
        .error "filtered_chunk_count must be <= original_chunk_count") := by
  constructor
  · intro E agg
    obtain ⟨_, h2, h3, _, _⟩ := filter_context_spec E agg
    rw [h3]
    exact h2
  · intro qid n m chunks time avg th rem con h
    simp [FilteredContext.construct, h]

/-- Witness for C8 at a concrete run and a concrete rejected construction. -/
theorem C8_filtered_le_original_witness :
    ((filter_context defaultEvaluator aggAvgBug).filtered_chunk_count ≤
       (filter_context defaultEvaluator aggAvgBug).original_chunk_count) ∧
    (0 < 1 ∧
      FilteredContext.construct "q" 0 1 [] 0 0 (3/5) [] [] =
        .error "filtered_chunk_count must be <= original_chunk_count") :=
  ⟨C8_filtered_le_original.1 defaultEvaluator aggAvgBug,
   ⟨by decide, C8_filtered_le_original.2 "q" 0 1 [] 0 0 (3/5) [] [] (by decide)⟩⟩

/-! ### Contradiction detection (C2) -/

theorem pairsWith_mem (c1 c2 : FilteredChunk) (l₂ l₃ : List FilteredChunk)
    (htypes : c1.source_type ≠ c2.source_type)
    (hheur : _contains_potential_contradiction c1.text c2.text = true) :
    (c1, c2) ∈ pairsWith c1 (l₂ ++ c2 :: l₃) := by
  induction l₂ with
  | nil =>
    simp only [List.nil_append, pairsWith]
    rw [if_pos ⟨htypes, hheur⟩]
    exact List.mem_append_left _ (List.mem_singleton_self _)
  | cons x xs ih =>
    simp only [List.cons_append, pairsWith]
    exact List.mem_append_right _ ih

theorem detect_pairs_mem (c1 c2 : FilteredChunk) :
    ∀ (l₁ : List FilteredChunk) (l₂ l₃ : List FilteredChunk),
      c1.source_type ≠ c2.source_type →
      _contains_potential_contradiction c1.text c2.text = true →
      (c1, c2) ∈ _detect_contradiction_pairs (l₁ ++ c1 :: l₂ ++ c2 :: l₃) := by
  intro l₁
  induction l₁ with
  | nil =>
    intro l₂ l₃ h1 h2
    simp only [List.nil_append, _detect_contradiction_pairs]
    exact List.mem_append_left _ (pairsWith_mem c1 c2 l₂ l₃ h1 h2)
  | cons x xs ih =>
    intro l₂ l₃ h1 h2
    simp only [List.cons_append, _detect_contradiction_pairs]
    exact List.mem_append_right _ (ih l₂ l₃ h1 h2)

/-- Two well-formed kept chunks from different source kinds whose texts hit
the keyword-antonym pair ("cannot", "can") in the direction checked by the
code: the arxiv chunk (higher score, sorted first) contains "cannot" and the
web chunk contains "can". -/
def chunkCannot : ContextChunk :=
  sampleChunk "c1" .arxiv "ai cannot replace people" (4/5)

def chunkCan : ContextChunk :=
  sampleChunk "c2" .web "machines can create art" (4/5)

def aggContra : AggregatedContext :=
  ((AggregatedContext.init "q2").add_chunk chunkCannot).add_chunk chunkCan

/-- C2 counterexample: both chunks are kept (scores `0.705` and `0.63`,
both ≥ 0.6), they come from different source kinds, and their texts trigger
the keyword-antonym heuristic — the internal pair list is non-empty — yet the
list of detected contradiction pairs on the returned `FilteredContext` is empty:
`_detect_contradictions` never records the pair. -/
theorem C2_counterexample :
    (filter_context defaultEvaluator aggContra).chunks.map
        (fun c => (c.source_type, c.filtering_decision)) =
      [(.arxiv, .kept), (.web, .kept)] ∧
    _contains_potential_contradiction chunkCannot.text chunkCan.text = true ∧
    chunkCannot.source_type ≠ chunkCan.source_type ∧
    _detect_contradiction_pairs
      (filter_context defaultEvaluator aggContra).chunks ≠ [] ∧
    (filter_context defaultEvaluator aggContra).contradictions_detected = [] := by
  refine ⟨by decide, by decide, by decide, by decide, ?_⟩
  exact (filter_context_spec defaultEvaluator aggContra).2.2.2.1

/-- C2 (amended): for every pair of kept fragments from different source
kinds whose texts trigger the keyword-antonym heuristic (in the
text-order direction the code checks), `Evaluator.Filter` *detects* the pair
— it appears in the internally computed `contradiction_pairs` list, which is
only logged — but it does *not* record it in the returned evidence: the
returned list of detected contradiction pairs is always empty. -/
theorem C2_pairs_detected_but_never_recorded (E : Evaluator)
    (agg : AggregatedContext) (l₁ l₂ l₃ : List FilteredChunk)
    (c1 c2 : FilteredChunk)
    (hsplit : (filter_context E agg).chunks = l₁ ++ c1 :: l₂ ++ c2 :: l₃)
    (htypes : c1.source_type ≠ c2.source_type)
    (hheur : _contains_potential_contradiction c1.text c2.text = true) :
    (c1, c2) ∈ _detect_contradiction_pairs (filter_context E agg).chunks ∧
    (filter_context E agg).contradictions_detected = [] := by
  constructor
  · rw [hsplit]
    exact detect_pairs_mem c1 c2 l₁ l₂ l₃ htypes hheur
  · exact (filter_context_spec E agg).2.2.2.1

/-- The two kept `FilteredChunk`s of the `aggContra` run (arxiv score
`0.3·0.95 + 0.2·0.5 + 0.4·0.8 = 0.705`, web score `0.63`). -/
def fcCannot : FilteredChunk :=
  { toContextChunk := chunkCannot, quality_score := 141/200,
    quality_components := some
      { source_reputation := 19/20, recency_score := 1/2,
        semantic_relevance := 4/5, redundancy_penalty := 0 },
    filtering_decision := .kept }

def fcCan : FilteredChunk :=
  { toContextChunk := chunkCan, quality_score := 63/100,
    quality_components := some
      { source_reputation := 7/10, recency_score := 1/2,
        semantic_relevance := 4/5, redundancy_penalty := 0 },
    filtering_decision := .kept }

theorem C2_pairs_detected_but_never_recorded_witness :
    ((filter_context defaultEvaluator aggContra).chunks =
        [] ++ fcCannot :: [] ++ fcCan :: [] ∧
      fcCannot.source_type ≠ fcCan.source_type ∧
      _contains_potential_contradiction fcCannot.text fcCan.text = true) ∧
    ((fcCannot, fcCan) ∈ _detect_contradiction_pairs
        (filter_context defaultEvaluator aggContra).chunks ∧
      (filter_context defaultEvaluator aggContra).contradictions_detected = []) :=
  ⟨⟨by decide, by decide, by decide⟩,
   C2_pairs_detected_but_never_recorded defaultEvaluator aggContra [] [] []
     fcCannot fcCan (by decide) (by decide) (by decide)⟩

/-! ### Deduplication (C6) -/

/-- A text whose token set is non-empty has self-similarity exactly 1. -/
theorem text_similarity_self (t : String) (h : tokensOf t ≠ []) :
    _calculate_text_similarity t t = 1 := by
  simp only [_calculate_text_similarity]
  rw [if_neg (by simpa using h)]
  have hfilter1 : (tokensOf t).filter (fun x => decide (x ∈ tokensOf t)) =
      tokensOf t :=
    List.filter_eq_self.mpr (fun a ha => by simpa using ha)
  have hfilter2 : (tokensOf t).filter (fun x => decide (x ∉ tokensOf t)) =
      [] :=
    List.filter_eq_nil_iff.mpr (fun a ha => by simpa using ha)
  rw [hfilter1, hfilter2, List.append_nil]
  have hpos : 0 < (tokensOf t).length := List.length_pos.mpr h
  rw [if_pos hpos]
  exact div_self (by exact_mod_cast hpos.ne')

/-- `sortByScoreDesc` on a two-element list. -/
theorem sortByScoreDesc_pair (x y : ScoredChunk) :
    sortByScoreDesc [x, y] =
      if y.2.1 ≤ x.2.1 then [x, y] else [y, x] := by
  simp [sortByScoreDesc, sortDescBy, insertDescBy]

/-- `filterLoop` on two above-threshold scored chunks whose second is a
near-duplicate of the first: the first is kept, the second is removed as
`deduplicated`. -/
theorem filterLoop_pair_dedup (E : Evaluator) (c1 c2 : ContextChunk)
    (s1 s2 : ℚ) (k1 k2 : QualityScoring) (f : FilteredContext)
    (h1 : E.quality_threshold ≤ s1) (h2 : E.quality_threshold ≤ s2)
    (hsim : E.dedup_threshold <
      _calculate_text_similarity c2.text c1.text) :
    filterLoop E [(c1, s1, k1), (c2, s2, k2)] [] [] f =
      ([{ toContextChunk := c1, quality_score := s1,
          quality_components := some k1, filtering_decision := .kept }],
       [mkRemovedRecord c2 .deduplicated s2],
       f.add_filtered_chunk
         { toContextChunk := c1, quality_score := s1,
           quality_components := some k1, filtering_decision := .kept }) := by
  have hd : findDuplicate E c2.text
      [{ toContextChunk := c1, quality_score := s1,
         quality_components := some k1,
         filtering_decision := .kept }] = true := by
    simp only [findDuplicate]
    simp [hsim]
  simp only [filterLoop, findDuplicate, if_pos h1, if_pos h2]
  simp [hd, filterLoop]
  exact hsim

/-- Identical text, different relevance: the higher one scores
`0.3·0.8 + 0.2·0.5 + 0.4·0.9 = 0.7 ≥ 0.6` and is kept, the lower one scores
`0.3·0.8 + 0.2·0.5 + 0.4·0.2 = 0.42 < 0.6`. -/
def chunkDupHigh : ContextChunk :=
  sampleChunk "d1" .rag "alpha beta gamma" (9/10)

def chunkDupLow : ContextChunk :=
  sampleChunk "d2" .rag "alpha beta gamma" (1/5)

def aggDup : AggregatedContext :=
  ((AggregatedContext.init "q6").add_chunk chunkDupHigh).add_chunk chunkDupLow

/-- C6 counterexample: two fragments with identical text where one scores
higher; the higher one is kept, but the lower-scored one falls below the
quality threshold and is recorded `low_quality`, not `deduplicated` — the
dedup check only runs for fragments at or above the threshold. -/
theorem C6_counterexample :
    chunkDupHigh.text = chunkDupLow.text ∧
    (calculate_quality_score defaultEvaluator chunkDupLow []).1 <
      (calculate_quality_score defaultEvaluator chunkDupHigh []).1 ∧
    (filter_context defaultEvaluator aggDup).chunks.map (fun c => c.id) =
      ["d1"] ∧
    (filter_context defaultEvaluator aggDup).removed_chunks.map
      (fun r => (r.original_chunk_id, r.reason)) =
      [("d2", FilteringDecision.low_quality)] := by
  refine ⟨by decide, by decide, by decide, by decide⟩

/-- C6 (amended): given an `AggregatedContext` of exactly two fragments with
identical text whose token set is non-empty, where one receives a strictly
higher quality score and *both* scores meet the quality threshold (and the
dedup threshold is below 1, as by default), `filter_context` keeps the
higher-scored fragment and drops the lower-scored one with filtering
decision `deduplicated`. -/
theorem C6_amended_dedup (E : Evaluator) (agg : AggregatedContext)
    (c1 c2 : ContextChunk)
    (horder : agg.chunks = [c1, c2] ∨ agg.chunks = [c2, c1])
    (htext : c1.text = c2.text)
    (htok : tokensOf c2.text ≠ [])
    (hdt : E.dedup_threshold < 1)
    (hscore : (calculate_quality_score E c2 []).1 <
      (calculate_quality_score E c1 []).1)
    (hth : E.quality_threshold ≤ (calculate_quality_score E c2 []).1) :
    (filter_context E agg).chunks.map (fun c => c.id) = [c1.id] ∧
    (filter_context E agg).removed_chunks.map
      (fun r => (r.original_chunk_id, r.reason)) =
      [(c2.id, FilteringDecision.deduplicated)] := by
  have hsim : E.dedup_threshold < _calculate_text_similarity c2.text c1.text := by
    rw [htext, text_similarity_self c2.text htok]; exact hdt
  have hs2le := hscore.le
  have hth1 : E.quality_threshold ≤ (calculate_quality_score E c1 []).1 :=
    le_trans hth hs2le
  rcases horder with h | h
  · unfold filter_context _detect_contradictions
    rw [h]
    simp only [List.map_cons, List.map_nil]
    rw [sortByScoreDesc_pair, if_pos hs2le,
      filterLoop_pair_dedup E c1 c2 _ _ _ _ _ hth1 hth hsim]
    simp [FilteredContext.add_filtered_chunk, FilteredContext.add_removed_chunk,
      FilteredContext.make, mkRemovedRecord]
  · unfold filter_context _detect_contradictions
    rw [h]
    simp only [List.map_cons, List.map_nil]
    rw [sortByScoreDesc_pair, if_neg (not_le.mpr hscore),
      filterLoop_pair_dedup E c1 c2 _ _ _ _ _ hth1 hth hsim]
    simp [FilteredContext.add_filtered_chunk, FilteredContext.add_removed_chunk,
      FilteredContext.make, mkRemovedRecord]

/-- Identical text to `chunkDupHigh`, relevance `0.8`:
score `0.3·0.8 + 0.2·0.5 + 0.4·0.8 = 0.66`, above the threshold but below
`0.7`. -/
def chunkDupKeep : ContextChunk :=
  sampleChunk "d3" .rag "alpha beta gamma" (4/5)

def aggDupBoth : AggregatedContext :=
  ((AggregatedContext.init "q7").add_chunk chunkDupHigh).add_chunk chunkDupKeep

theorem C6_amended_dedup_witness :
    (aggDupBoth.chunks = [chunkDupHigh, chunkDupKeep] ∧
      chunkDupHigh.text = chunkDupKeep.text ∧
      tokensOf chunkDupKeep.text ≠ [] ∧
      defaultEvaluator.dedup_threshold < 1 ∧
      (calculate_quality_score defaultEvaluator chunkDupKeep []).1 <
        (calculate_quality_score defaultEvaluator chunkDupHigh []).1 ∧
      defaultEvaluator.quality_threshold ≤
        (calculate_quality_score defaultEvaluator chunkDupKeep []).1) ∧
    ((filter_context defaultEvaluator aggDupBoth).chunks.map
        (fun c => c.id) = [chunkDupHigh.id] ∧
      (filter_context defaultEvaluator aggDupBoth).removed_chunks.map
        (fun r => (r.original_chunk_id, r.reason)) =
        [(chunkDupKeep.id, FilteringDecision.deduplicated)]) :=
  ⟨⟨by decide, by decide, by decide, by decide, by decide, by decide⟩,
   C6_amended_dedup defaultEvaluator aggDupBoth chunkDupHigh chunkDupKeep
     (Or.inl (by decide)) (by decide) (by decide) (by decide) (by decide)
     (by decide)⟩

/-! ### Synthesizer empty-input policy (C5) -/

theorem append3_ne_empty (a t b : String) (ha : a.data ≠ []) :
    a ++ t ++ b ≠ "" := by
  intro hc
  have hd := congrArg String.data hc
  simp only [String.data_append] at hd
  simp at hd
  exact ha hd.1

/-- C5: `Synthesizer.generate_response` on a `FilteredContext` with no
chunks returns the fixed degraded response: `degraded_mode = true`,
`completeness = 0`, `overall_confidence = 0.2`, a non-empty apologetic
answer, no sections and no source attributions. -/
theorem C5_empty_input_degraded (S : Synthesizer) (query : Query)
    (fc : FilteredContext) (h : fc.chunks = []) :
    (generate_response S query fc).response_quality.degraded_mode = true ∧
    (generate_response S query fc).response_quality.completeness = 0 ∧
    (generate_response S query fc).overall_confidence = 1/5 ∧
    (generate_response S query fc).answer ≠ "" ∧
    (generate_response S query fc).sections = [] ∧
    (generate_response S query fc).sources = [] := by
  unfold generate_response
  rw [if_pos h]
  refine ⟨rfl, rfl, rfl, ?_, rfl, rfl⟩
  exact append3_ne_empty _ _ _ (by decide)

/-- An empty `FilteredContext` and a well-formed query for the C5 witness. -/
def emptyFilteredContext : FilteredContext :=
  FilteredContext.make "q5" 0 0 [] 0 0 (3/5) [] []

def queryML : Query :=
  { id := "q5", user_id := "u1", session_id := "s1",
    text := "What is machine learning?" }

theorem C5_empty_input_degraded_witness :
    emptyFilteredContext.chunks = [] ∧
    ((generate_response Synthesizer.default queryML
        emptyFilteredContext).response_quality.degraded_mode = true ∧
     (generate_response Synthesizer.default queryML
        emptyFilteredContext).response_quality.completeness = 0 ∧
     (generate_response Synthesizer.default queryML
        emptyFilteredContext).overall_confidence = 1/5 ∧
     (generate_response Synthesizer.default queryML
        emptyFilteredContext).answer ≠ "" ∧
     (generate_response Synthesizer.default queryML
        emptyFilteredContext).sections = [] ∧
     (generate_response Synthesizer.default queryML
        emptyFilteredContext).sources = []) :=
  ⟨rfl, C5_empty_input_degraded Synthesizer.default queryML
    emptyFilteredContext rfl⟩

/-! ### Recency score (C7) -/

/-- C7: the recency score is monotonically non-increasing with age — for two
non-future dates the more recent one scores at least as high — while missing
dates score `0.5` and future dates score `0.9`.  `max_age_days` is the
`__init__`-clamped field, so `1 ≤ max_age_days`. -/
theorem C7_recency_monotone (max_age_days now d1 d2 : ℤ)
    (hmad : 1 ≤ max_age_days) (h1 : d1 ≤ now) (h2 : d2 ≤ now)
    (hord : d2 ≤ d1) :
    _calculate_recency_score max_age_days now (some d2) ≤
      _calculate_recency_score max_age_days now (some d1) ∧
    _calculate_recency_score max_age_days now none = 1/2 ∧
    ∀ f : ℤ, now < f →
      _calculate_recency_score max_age_days now (some f) = 9/10 := by
  refine ⟨?_, rfl, fun f hf => by simp [_calculate_recency_score, if_pos hf]⟩
  simp only [_calculate_recency_score]
  rw [if_neg (not_lt.mpr h1), if_neg (not_lt.mpr h2)]
  have ha1 : 0 ≤ (now - d1).ediv 86400 :=
    Int.ediv_nonneg (by omega) (by norm_num)
  have ha2 : 0 ≤ (now - d2).ediv 86400 :=
    Int.ediv_nonneg (by omega) (by norm_num)
  rw [if_neg (not_lt.mpr ha1), if_neg (not_lt.mpr ha2)]
  have hle : (now - d1).ediv 86400 ≤ (now - d2).ediv 86400 :=
    Int.ediv_le_ediv (by norm_num) (by omega)
  have hmadpos : (0 : ℝ) < (max_age_days : ℝ) := by
    have : (1 : ℝ) ≤ (max_age_days : ℝ) := by exact_mod_cast hmad
    linarith
  have hexp : Real.exp (-(1 / (max_age_days : ℝ)) *
        (((now - d2).ediv 86400 : ℤ) : ℝ)) ≤
      Real.exp (-(1 / (max_age_days : ℝ)) *
        (((now - d1).ediv 86400 : ℤ) : ℝ)) := by
    apply Real.exp_le_exp.mpr
    have hcast : (((now - d1).ediv 86400 : ℤ) : ℝ) ≤
        (((now - d2).ediv 86400 : ℤ) : ℝ) := by exact_mod_cast hle
    have hmul := mul_le_mul_of_nonneg_left hcast
      (le_of_lt (one_div_pos.mpr hmadpos))
    linarith
  exact max_le_max le_rfl (min_le_min le_rfl hexp)

/-- Witness for C7: `max_age_days = max(1, 365)`, now = 2025-11-10,
the 2025-11-10 fragment vs the 2020-01-01 fragment (epoch seconds). -/
theorem C7_recency_monotone_witness :
    (1 ≤ evaluatorMaxAge 365 ∧ (1762732800 : ℤ) ≤ 1762732800 ∧
      (1577836800 : ℤ) ≤ 1762732800 ∧ (1577836800 : ℤ) ≤ 1762732800) ∧
    (_calculate_recency_score (evaluatorMaxAge 365) 1762732800
        (some 1577836800) ≤
      _calculate_recency_score (evaluatorMaxAge 365) 1762732800
        (some 1762732800) ∧
     _calculate_recency_score (evaluatorMaxAge 365) 1762732800 none = 1/2 ∧
     ∀ f : ℤ, 1762732800 < f →
       _calculate_recency_score (evaluatorMaxAge 365) 1762732800 (some f) =
         9/10) :=
  ⟨⟨by decide, by decide, by decide, by decide⟩,
   C7_recency_monotone (evaluatorMaxAge 365) 1762732800 1762732800 1577836800
     (by decide) (by decide) (by decide) (by decide)⟩

/-! ### Orchestrator error handling (C3, C4) and state tracking (C9, C10) -/

def queryEval : Query :=
  { id := "q3", user_id := "u1", session_id := "s1", text := "test query" }

def aggEval : AggregatedContext :=
  (AggregatedContext.init "q3").add_chunk
    (sampleChunk "e1" .web "some web evidence" (4/5))

/-- C3: when the evaluator raises during the evaluation step, the step is
recorded as failed in `WorkflowState` — but the pipeline continues with an
*empty* `FilteredContext` (`chunks=[]`, `average_quality_score=0.5`), not
with the aggregated fragments marked kept: every aggregated fragment is
dropped. -/
theorem C3_eval_exception_drops_all_fragments :
    aggEval.chunks ≠ [] ∧
    (evaluationStep true (.error "Evaluation error") aggEval queryEval
        (WorkflowState.init "q3" 0) 1 2).1.chunks = [] ∧
    (evaluationStep true (.error "Evaluation error") aggEval queryEval
        (WorkflowState.init "q3" 0) 1 2).1.average_quality_score = 1/2 ∧
    (evaluationStep true (.error "Evaluation error") aggEval queryEval
        (WorkflowState.init "q3" 0) 1 2).2.failed_steps = [.evaluation] :=
  ⟨by decide, by decide, by decide, by decide⟩

def queryRet : Query :=
  { id := "q4", user_id := "u1", session_id := "s1", text := "test query" }

/-- Four tools: three complete well before the 15-second deadline and return
one successful chunk each; the fourth is still running when the deadline
elapses. -/
def runsTimeout : List ToolRun :=
  [{ tool_name := "rag_search",
     outcome := .completes 1
       (.returns [sampleChunk "r1" .rag "rag evidence" (4/5)] true) },
   { tool_name := "web_search",
     outcome := .completes 2
       (.returns [sampleChunk "w1" .web "web evidence" (4/5)] true) },
   { tool_name := "memory_search",
     outcome := .completes 3
       (.returns [sampleChunk "m1" .memory "memory evidence" (4/5)] true) },
   { tool_name := "arxiv_search", outcome := .outstanding }]

/-- C4: when the overall deadline elapses with a tool still outstanding,
`as_completed` raises out of `_retrieve_context_with_retry` and the locally
accumulated evidence is lost; the `process_query` handler falls back to a fresh
empty `AggregatedContext`.  The three completed tools *had* produced three
chunks (last conjunct), yet the pipeline continues with no chunks, an empty
`sources_consulted` and — contrary to the claim — an empty `sources_failed`
that does not name the unfinished tool. -/
theorem C4_timeout_discards_partial_results :
    (retrievalStep 15 queryRet runsTimeout (WorkflowState.init "q4" 0)
        0 15).1.chunks = [] ∧
    (retrievalStep 15 queryRet runsTimeout (WorkflowState.init "q4" 0)
        0 15).1.sources_consulted = [] ∧
    (retrievalStep 15 queryRet runsTimeout (WorkflowState.init "q4" 0)
        0 15).1.sources_failed = [] ∧
    (retrievalStep 15 queryRet runsTimeout (WorkflowState.init "q4" 0)
        0 15).2.failed_steps = [.retrieval] ∧
    (retrieveLoop 15 "q4" (runsTimeout.take 3) [] [] [] 0).toOption.map
        (fun r => (r.1.length, r.2.1)) =
      some (3, ["rag_search", "web_search", "memory_search"]) :=
  ⟨by decide, by decide, by decide, by decide, by decide⟩

/-- C9: `record_step_start` stores the absolute start timestamp under the
string key `step.value`, but the guard in `record_step_complete` tests membership
of the *enum member* among those string keys, which is always false — so the
entry is never replaced by the elapsed time and keeps the absolute start
timestamp: after starting at `t=100` and completing at `t=105` the entry is
`100`, not the elapsed `5`. -/
theorem C9_step_time_holds_start_timestamp :
    dictGet? (((WorkflowState.init "q9" 100).record_step_start .retrieval
        100).record_step_complete .retrieval 105).step_times
      (PyKey.str "retrieval") = some 100 ∧
    (((WorkflowState.init "q9" 100).record_step_start .retrieval
        100).record_step_complete .retrieval 105).completed_steps =
      [.retrieval] ∧
    (100 : ℚ) ≠ 105 - 100 :=
  ⟨by decide, by decide, by decide⟩

theorem registerAll_tools (ts : List Tool) :
    ∀ o : Orchestrator, (ts.foldl register_tool o).tools = o.tools ++ ts := by
  induction ts with
  | nil => intro o; simp
  | cons t ts ih =>
    intro o
    simp only [List.foldl_cons]
    rw [ih]
    simp [register_tool]

/-- C10: after registering any list of tools into a fresh orchestrator,
`get_status` reports `ready = true` iff at least one tool is registered, the
tool count equals the number of registered tools, and `tool_names` lists
their names in registration order. -/
theorem C10_get_status_reflects_registration (ts : List Tool) :
    ((get_status (ts.foldl register_tool Orchestrator.default)).ready = true ↔
      ts ≠ []) ∧
    (get_status (ts.foldl register_tool
        Orchestrator.default)).tools_registered = ts.length ∧
    (get_status (ts.foldl register_tool Orchestrator.default)).tool_names =
      ts.map (fun t => t.tool_name) := by
  have h : (ts.foldl register_tool Orchestrator.default).tools = ts := by
    rw [registerAll_tools ts Orchestrator.default]; rfl
  refine ⟨?_, ?_, ?_⟩
  · simp [get_status, h, List.length_pos]
  · simp [get_status, h]
  · simp [get_status, h]

end RA
